import Mathlib

/-!
Shallow embedding of the ZogHttp client (src/zog-http.js) request pipeline:
configuration merging, header resolution, URL building, the interceptor
chains, the retry/timeout classification in executeRequest, the request()
lifecycle with its GlobalState bookkeeping, the abort-controller registry,
create()'s configuration sharing, and the pendingRequests counter under
concurrent interleavings with cancelAll.

Modelling conventions:
  * JavaScript objects used as string maps (headers) are association lists
    with last-write-wins lookup; object spread is list append, which is
    lookup-equivalent.
  * JavaScript mutable object references (the headers object shared between
    clients) are indices into an explicit heap (list of header maps).
  * The network is an oracle (attempt index to outcome); real time is not
    modelled, but the model counts scheduled timeout callbacks and
    accumulates the retry-delay milliseconds the code awaits.
  * Percent-encoding in URLSearchParams is omitted: on the alphanumeric
    keys and values the claims use it is the identity.
  * Response-body parsing by content type is collapsed: data flows through
    as a string (the claims never inspect the parse).
-/

namespace ZogHttp

/-- Header maps: JS objects keyed by strings with string values, as
association lists.  Later entries win on lookup, so JS object spread is
modelled by append. -/
abbrev Headers := List (String × String)

/-- Lookup with last-write-wins: the value of the last entry for the key,
matching JS object semantics (a later spread overwrites). -/
def hlookup : Headers → String → Option String
  | [], _ => none
  | (k, v) :: rest, key =>
    match hlookup rest key with
    | some w => some w
    | none => if k = key then some v else none

/-- JS object spread of two header maps: keys of `b` override keys of `a`
(lookup-level model of the source's spread-merge). -/
def spread (a b : Headers) : Headers := a ++ b

/-- Builtin default headers, from DEFAULT_CONFIG.headers (line 28). -/
def defaultHeaders : Headers := [("Content-Type", "application/json")]

/-- JS String.prototype.startsWith, over character lists so the model
evaluates by kernel reduction. -/
def strStartsWith (s p : String) : Bool := p.data.isPrefixOf s.data

/-- JS String.prototype.includes for one character, over character
lists. -/
def strContains (s : String) (c : Char) : Bool := s.data.contains c

/-- JS String.prototype.toUpperCase, over character lists. -/
def strToUpper (s : String) : String := ⟨s.data.map Char.toUpper⟩

/-- Query-parameter values: JS undefined, null, a scalar, or an array
(buildURL, lines 330-338). -/
inductive PVal where
  | undef : PVal
  | null : PVal
  | scalar : String → PVal
  | list : List String → PVal
deriving DecidableEq, Repr

/-- The key=value pairs URLSearchParams accumulates from a params object:
undefined and null are skipped, arrays append one pair per element in
order, scalars append one pair (lines 329-338). -/
def queryPairs (params : List (String × PVal)) : List (String × String) :=
  params.foldl
    (fun acc kv =>
      match kv.2 with
      | .undef => acc
      | .null => acc
      | .scalar s => acc ++ [(kv.1, s)]
      | .list xs => acc ++ xs.map (fun x => (kv.1, x)))
    []

/-- URLSearchParams.toString: ampersand-joined key=value pairs
(percent-encoding omitted; identity on the characters the claims use). -/
def queryToString (pairs : List (String × String)) : String :=
  String.intercalate "&" (pairs.map fun kv => kv.1 ++ "=" ++ kv.2)

/-- buildURL (lines 324-346): use the url verbatim when it starts with
"http", else prepend the client baseURL; append the query string with a
question mark when the full URL has none, else with an ampersand. -/
def buildURL (baseURL url : String) (params : List (String × PVal)) : String :=
  let fullURL := if strStartsWith url "http" then url else baseURL ++ url
  let queryString := queryToString (queryPairs params)
  if queryString = "" then fullURL
  else fullURL ++ (if strContains fullURL '?' then "&" else "?") ++ queryString

/-- JS error values as the pipeline distinguishes them: HttpError carries a
message and status (class at lines 56-65); AbortError is what fetch rejects
with when the abort controller fires; TypeError is a raw network failure;
other covers arbitrary interceptor-thrown values, tagged with their name.
Dispatch in the catch blocks is by the name string, as in the source. -/
inductive JsError where
  | httpError : String → Nat → JsError
  | abortError : JsError
  | typeError : String → JsError
  | other : String → Nat → JsError
deriving DecidableEq, Repr

/-- The error.name field the catch blocks test (lines 552, 557). -/
def JsError.name : JsError → String
  | .httpError _ _ => "HttpError"
  | .abortError => "AbortError"
  | .typeError _ => "TypeError"
  | .other n _ => n

/-- The response object executeRequest builds (lines 520-527), restricted
to the fields the claims observe.  statusText is modelled as empty and data
as the raw body string. -/
structure ResponseObj where
  status : Nat
  data : String
deriving DecidableEq, Repr

/-- Values a request can resolve with: a response object, an opaque value
produced by an interceptor, or JS undefined (a rejected response
interceptor may return undefined, which replaces the response at line
388). -/
inductive Value where
  | undef : Value
  | resp : ResponseObj → Value
  | raw : Nat → Value
deriving DecidableEq, Repr

/-- A request interceptor entry: optional fulfilled transform of the
config and optional rejected error handler (lines 270-274).  Handlers are
modelled as pure functions that may throw (Except.error) and may return
undefined (Option.none). -/
structure ReqInterceptor (Config : Type) where
  fulfilled : Option (Config → Except JsError (Option Config))
  rejected : Option (JsError → Except JsError (Option Config))

/-- A response interceptor entry (lines 282-286). -/
structure RespInterceptor where
  fulfilled : Option (Value → Except JsError (Option Value))
  rejected : Option (JsError → Except JsError (Option Value))

/-- runRequestInterceptors (lines 353-371): fold the chain over the
config; a falsy (undefined) return keeps the previous config; a throwing
fulfilled is handed to the same entry's rejected handler whose return (or
the previous config, when it returns undefined) continues the chain; with
no rejected handler the error propagates and stops the chain. -/
def runRequestInterceptors {Config : Type} :
    List (ReqInterceptor Config) → Config → Except JsError Config
  | [], config => .ok config
  | i :: rest, config =>
    match i.fulfilled with
    | none => runRequestInterceptors rest config
    | some f =>
      match f config with
      | .ok r => runRequestInterceptors rest (r.getD config)
      | .error e =>
        match i.rejected with
        | none => .error e
        | some g =>
          match g e with
          | .ok r => runRequestInterceptors rest (r.getD config)
          | .error e2 => .error e2

/-- runResponseInterceptors (lines 378-396): same shape over the response,
except a rejected handler's return replaces the response wholesale (no
fallback to the previous response: an undefined return becomes undefined,
line 388). -/
def runResponseInterceptors :
    List RespInterceptor → Value → Except JsError Value
  | [], response => .ok response
  | i :: rest, response =>
    match i.fulfilled with
    | none => runResponseInterceptors rest response
    | some f =>
      match f response with
      | .ok r => runResponseInterceptors rest (r.getD response)
      | .error e =>
        match i.rejected with
        | none => .error e
        | some g =>
          match g e with
          | .ok r => runResponseInterceptors rest (r.getD .undef)
          | .error e2 => .error e2

/-- runResponseErrorInterceptors (lines 403-417): walk the response
interceptors; the first rejected handler returning a defined value
short-circuits with that value; a handler returning undefined is skipped;
a handler that throws replaces the error carried to the remaining handlers
and to the final rethrow. -/
def runResponseErrorInterceptors :
    List RespInterceptor → JsError → Except JsError Value
  | [], e => .error e
  | i :: rest, e =>
    match i.rejected with
    | none => runResponseErrorInterceptors rest e
    | some g =>
      match g e with
      | .ok (some v) => .ok v
      | .ok none => runResponseErrorInterceptors rest e
      | .error e2 => runResponseErrorInterceptors rest e2

/-- Instance configuration of a client as a value (this.config after the
constructor).  The abort-controller registry and reactive state live
outside this record. -/
structure ClientConfig where
  baseURL : String
  headers : Headers
  timeout : Nat
  retries : Nat
  retryDelay : Nat
deriving DecidableEq, Repr

/-- Options passed to the constructor (or to create): each field may be
absent.  The headers field, when present, is an object reference whose
value is modelled inline here (the aliasing model for create lives
below). -/
structure CtorOptions where
  baseURL : Option String
  headers : Option Headers
  timeout : Option Nat
  retries : Option Nat
  retryDelay : Option Nat
deriving DecidableEq, Repr

/-- The constructor's config merge (line 156):
this.config = spread of DEFAULT_CONFIG and the supplied config.  The
spread is shallow, so a supplied headers object replaces the builtin
default headers wholesale; it is NOT merged per key with them. -/
def mkClientConfig (opts : CtorOptions) : ClientConfig :=
  { baseURL := opts.baseURL.getD ""
    headers := opts.headers.getD defaultHeaders
    timeout := opts.timeout.getD 30000
    retries := opts.retries.getD 0
    retryDelay := opts.retryDelay.getD 1000 }

/-- Per-call options given to request() (lines 432, 438-451), restricted
to the fields the claims observe. -/
structure Options where
  method : Option String
  url : String
  headers : Option Headers
  params : List (String × PVal)
  timeout : Option Nat
  retries : Option Nat
  retryDelay : Option Nat
deriving DecidableEq, Repr

/-- The effective request headers computed by request() (lines 438-451):
the config literal starts from a copy of the instance headers, but the
trailing spread of options overwrites the headers property wholesale when
per-call headers are present; the subsequent per-key merge at lines
449-451 then merges the per-call headers with themselves. -/
def resolveHeaders (instanceHeaders : Headers) : Option Headers → Headers
  | none => instanceHeaders
  | some perCall => spread perCall perCall

/-- The resolved request config before interceptors (lines 438-451). -/
structure Config where
  method : String
  url : String
  headers : Headers
  params : List (String × PVal)
  timeout : Nat
  retries : Nat
  retryDelay : Nat
deriving DecidableEq, Repr

/-- The config merge at the top of request() (lines 438-451): defaults
from the instance config, overwritten by any present per-call option;
method defaults to GET; headers resolved by resolveHeaders. -/
def mergeConfig (c : ClientConfig) (opts : Options) : Config :=
  { method := opts.method.getD "GET"
    url := opts.url
    headers := resolveHeaders c.headers opts.headers
    params := opts.params
    timeout := opts.timeout.getD c.timeout
    retries := opts.retries.getD c.retries
    retryDelay := opts.retryDelay.getD c.retryDelay }

/-- Outcome of one fetch attempt, supplied by an oracle indexed by the
attempt number: a response with a status and body, a network failure
(fetch rejects with a TypeError), or an abort (the timeout fired or the
request was cancelled; fetch rejects with an AbortError). -/
inductive FetchOutcome where
  | ok : Nat → String → FetchOutcome
  | netErr : FetchOutcome
  | aborted : FetchOutcome
deriving DecidableEq, Repr

/-- response.ok of the Fetch API: status in [200, 300). -/
def respOk (status : Nat) : Bool := 200 ≤ status && status < 300

/-- The HttpError executeRequest constructs for a non-ok response (lines
531-536).  The body is modelled as a raw string (no message field) and
statusText as empty, so the message falls back to the template string. -/
def mkHttpError (status : Nat) : JsError :=
  .httpError ("Request failed with status " ++ toString status) status

/-- Decidable equality of throw-or-return results, for evaluating the
model on concrete inputs. -/
instance {E A : Type} [DecidableEq E] [DecidableEq A] :
    DecidableEq (Except E A) := fun a b =>
  match a, b with
  | .ok x, .ok y =>
    if h : x = y then .isTrue (by rw [h]) else .isFalse (by simp [h])
  | .error x, .error y =>
    if h : x = y then .isTrue (by rw [h]) else .isFalse (by simp [h])
  | .ok _, .error _ => .isFalse (by simp)
  | .error _, .ok _ => .isFalse (by simp)

/-- Result of executeRequest together with the observable trace: how many
fetch attempts ran and how many milliseconds of retry delay were
awaited. -/
structure ExecOut where
  result : Except JsError Value
  attempts : Nat
  delayMs : Nat
deriving DecidableEq, Repr

/-- The catch block of executeRequest when no retry is possible (lines
550-568 with the retry condition false): an AbortError becomes a terminal
HttpError 408 "Request timeout" without consulting the response error
interceptors; everything else is offered to the response error
interceptors and rethrown if unrecovered. -/
def catchTerminal (ints : List RespInterceptor) (e : JsError) : ExecOut :=
  if e.name = "AbortError" then
    ⟨.error (.httpError "Request timeout" 408), 1, 0⟩
  else
    ⟨runResponseErrorInterceptors ints e, 1, 0⟩

/-- executeRequest (lines 497-569), recursion on retriesLeft.  A 5xx
response with retries left, or a TypeError with retries left, awaits
retryDelay and recurses with one fewer retry; the recursive call is
returned without await inside the try, so its rejection does not re-enter
this level's catch.  An AbortError is terminal 408 at any retry budget.
Errors thrown by the response interceptors on a 2xx response flow through
the same catch.  attempts counts fetch calls; delayMs sums the retry
waits. -/
def executeRequest (ints : List RespInterceptor) (fetchAt : Nat → FetchOutcome)
    (retryDelay : Nat) : Nat → Nat → ExecOut
  | attempt, 0 =>
    match fetchAt attempt with
    | .ok status data =>
      if respOk status then
        match runResponseInterceptors ints (.resp ⟨status, data⟩) with
        | .ok v => ⟨.ok v, 1, 0⟩
        | .error e => catchTerminal ints e
      else
        catchTerminal ints (mkHttpError status)
    | .netErr => catchTerminal ints (.typeError "Failed to fetch")
    | .aborted => catchTerminal ints .abortError
  | attempt, rl + 1 =>
    let retryNow : ExecOut :=
      let inner := executeRequest ints fetchAt retryDelay (attempt + 1) rl
      ⟨inner.result, inner.attempts + 1, inner.delayMs + retryDelay⟩
    match fetchAt attempt with
    | .ok status data =>
      if respOk status then
        match runResponseInterceptors ints (.resp ⟨status, data⟩) with
        | .ok v => ⟨.ok v, 1, 0⟩
        | .error e =>
          if e.name = "AbortError" then
            ⟨.error (.httpError "Request timeout" 408), 1, 0⟩
          else if e.name = "TypeError" then retryNow
          else ⟨runResponseErrorInterceptors ints e, 1, 0⟩
      else if 500 ≤ status then retryNow
      else catchTerminal ints (mkHttpError status)
    | .netErr => retryNow
    | .aborted => catchTerminal ints .abortError

/-- The reactive global state of a client (lines 167-172): loading flag,
last unrecovered error slot, echo of the last request, and the pending
request counter (a plain JS number, so modelled as an integer: the code
never clamps it). -/
structure GlobalState where
  loading : Bool
  error : Option JsError
  lastRequest : Option (String × String)
  pendingRequests : Int
deriving DecidableEq, Repr

/-- Everything observable about one sequential run of request() (lines
432-580): the settled result, the global state afterwards, whether the
request's abort controller is still in the registry, how many timeout
callbacks were scheduled, and the transfer trace. -/
structure RequestOut where
  result : Except JsError Value
  state : GlobalState
  controllerRegistered : Bool
  timeoutsScheduled : Nat
  attempts : Nat
  delayMs : Nat
deriving DecidableEq, Repr

/-- request() (lines 432-580) for one request run to completion without
interleaving: register the abort controller, merge the config, run the
request interceptors (on failure: deregister and rethrow, before any
state update or timeout), build the URL, update the global state
(loading, pendingRequests++, lastRequest, error=null), schedule the
single timeout callback (line 492), run executeRequest, and in the
finally block clear the timeout, deregister the controller, decrement
pendingRequests and recompute loading. -/
def request (c : ClientConfig) (reqInts : List (ReqInterceptor Config))
    (respInts : List RespInterceptor) (fetchAt : Nat → FetchOutcome)
    (opts : Options) (g : GlobalState) : RequestOut :=
  match runRequestInterceptors reqInts (mergeConfig c opts) with
  | .error e =>
    ⟨.error e, g, false, 0, 0, 0⟩
  | .ok config =>
    let url := buildURL c.baseURL config.url config.params
    let methodUpper := strToUpper config.method
    let pendingAfter := g.pendingRequests + 1 - 1
    let ex := executeRequest respInts fetchAt config.retryDelay 0 config.retries
    ⟨ex.result,
      { loading := decide (0 < pendingAfter)
        error := none
        lastRequest := some (url, methodUpper)
        pendingRequests := pendingAfter },
      false, 1, ex.attempts, ex.delayMs⟩

/-- The seven verbs the documentation supports (file header, line 6, and
the verb shortcut methods at lines 588-653).  The code never checks a
request's method against this list. -/
def supportedMethods : List String :=
  ["GET", "POST", "PUT", "PATCH", "DELETE", "HEAD", "OPTIONS"]

/-- Per-call options with every optional field absent. -/
def bareOpts (url : String) : Options :=
  ⟨none, url, none, [], none, none, none⟩

/-- Constructor options with every field absent: a client on builtin
defaults. -/
def bareCtor : CtorOptions := ⟨none, none, none, none, none⟩

/-!  Counter machine for the pendingRequests bookkeeping under concurrent
interleavings.  Each request that passes its request interceptors runs
line 487 (pendingRequests++) once, and its finally block runs line 577
(pendingRequests--) exactly once when it settles; cancelAll (lines
998-1005) sets the counter to 0 without waiting for in-flight finally
blocks.  inFlight counts requests that have incremented but not yet
decremented. -/

/-- Counter state: the pendingRequests value and the number of requests
whose finally block is still outstanding. -/
structure CounterState where
  pending : Int
  inFlight : Nat
deriving DecidableEq, Repr

/-- One scheduler step of the client's counter bookkeeping: a request
begins (line 487), a request's finally block settles it (line 577), or
cancelAll resets the counter (line 1004) while in-flight requests keep
their pending finally blocks. -/
inductive CounterStep : CounterState → CounterState → Prop
  | beginReq (p : Int) (f : Nat) : CounterStep ⟨p, f⟩ ⟨p + 1, f + 1⟩
  | settleReq (p : Int) (f : Nat) : CounterStep ⟨p, f + 1⟩ ⟨p - 1, f⟩
  | cancelAll (p : Int) (f : Nat) : CounterStep ⟨p, f⟩ ⟨0, f⟩

/-- Counter states reachable from the initial state (counter 0, nothing
in flight) by any interleaving of requests and cancelAll calls. -/
inductive CounterReach : CounterState → Prop
  | init : CounterReach ⟨0, 0⟩
  | step {s t : CounterState} : CounterReach s → CounterStep s t → CounterReach t

/-- The same scheduler with cancelAll restricted to moments when no
request is in flight (the guarded discipline under which the claimed
invariant does hold). -/
inductive GuardedStep : CounterState → CounterState → Prop
  | beginReq (p : Int) (f : Nat) : GuardedStep ⟨p, f⟩ ⟨p + 1, f + 1⟩
  | settleReq (p : Int) (f : Nat) : GuardedStep ⟨p, f + 1⟩ ⟨p - 1, f⟩
  | cancelAllIdle (p : Int) : GuardedStep ⟨p, 0⟩ ⟨0, 0⟩

/-- Reachability under the guarded scheduler. -/
inductive GuardedReach : CounterState → Prop
  | init : GuardedReach ⟨0, 0⟩
  | step {s t : CounterState} : GuardedReach s → GuardedStep s t → GuardedReach t

/-!  Heap model for create()'s configuration sharing.  A headers object is
a heap cell; a client's config holds a reference to it.  The constructor
(line 156) and create (lines 1012-1018) spread configs shallowly, so the
headers reference is copied, never the object; setHeader (line 195)
mutates the referenced object in place; setBaseURL (line 184) writes a
top-level field of the client's own config object, which IS fresh per
client. -/

/-- The heap of headers objects: a total map from references to header
maps (JS references are always valid). -/
abbrev Heap := Nat → Headers

/-- Overwrite one heap cell. -/
def heapSet (heap : Heap) (r : Nat) (v : Headers) : Heap :=
  fun i => if i = r then v else heap i

/-- A client's config for the aliasing model: the headers object
reference plus the top-level baseURL field (fresh per client because the
constructor builds a new config object). -/
structure ClientRef where
  headersRef : Nat
  baseURL : String
deriving DecidableEq, Repr

/-- The reference DEFAULT_CONFIG.headers occupies: the module-level
default headers object, allocated once (line 28). -/
def defaultHeadersRef : Nat := 0

/-- Constructor options for the aliasing model: an optional headers
object reference and an optional baseURL. -/
structure CtorRefOptions where
  headersRef : Option Nat
  baseURL : Option String
deriving DecidableEq, Repr

/-- The constructor (lines 155-156) under the aliasing model: the shallow
spread of DEFAULT_CONFIG and the supplied config copies the headers
REFERENCE (the supplied object when present, else the module-level
default object); no headers object is allocated. -/
def mkClientRef (opts : CtorRefOptions) : ClientRef :=
  ⟨opts.headersRef.getD defaultHeadersRef, opts.baseURL.getD ""⟩

/-- create (lines 1012-1018): spread this.config and the override config
shallowly and hand the result to the constructor, so the child receives
the parent's headers reference unless the override supplies its own. -/
def ZogCreate (c : ClientRef) (override : CtorRefOptions) : ClientRef :=
  mkClientRef ⟨override.headersRef.orElse (fun _ => some c.headersRef),
               override.baseURL.orElse (fun _ => some c.baseURL)⟩

/-- setHeader (lines 194-197): in-place write of one key on the client's
headers object. -/
def setHeader (c : ClientRef) (heap : Heap) (key value : String) : Heap :=
  heapSet heap c.headersRef (heap c.headersRef ++ [(key, value)])

/-- setBaseURL (lines 183-186): writes the client's own config object's
top-level field; does not touch the heap. -/
def setBaseURL (c : ClientRef) (url : String) : ClientRef :=
  { c with baseURL := url }

/-- The headers a client reads through its reference: the instance layer
of every subsequent request's header resolution. -/
def instanceHeadersOf (c : ClientRef) (heap : Heap) : Headers :=
  heap c.headersRef

/-!  Concrete fixtures used by the claim theorems, their witnesses and
counterexamples. -/

/-- Transfer oracle: 503 on the first two attempts, then 200. -/
def f503x2 : Nat → FetchOutcome :=
  fun n => if n < 2 then .ok 503 "err" else .ok 200 "ok"

/-- Transfer oracle: always 404. -/
def f404 : Nat → FetchOutcome := fun _ => .ok 404 "nf"

/-- Transfer oracle: always 200. -/
def f200 : Nat → FetchOutcome := fun _ => .ok 200 "ok"

/-- Transfer oracle: the abort controller fired before every attempt
(timeout or cancellation). -/
def fAbort : Nat → FetchOutcome := fun _ => .aborted

/-- A prior global state with a leftover error, to watch what request()
does to each field. -/
def g0 : GlobalState := ⟨false, some (.other "Prev" 0), none, 0⟩

/-- Per-call options asking for one retry. -/
def retry1Opts : Options := { bareOpts "/x" with retries := some 1 }

/-- Per-call options with an unsupported method. -/
def methodOpts (m : String) : Options := { bareOpts "/x" with method := some m }

/-- A response interceptor whose rejected handler itself throws. -/
def throwingRecover : RespInterceptor :=
  ⟨none, some (fun _ => .error (.other "E" 2))⟩

/-- A response interceptor whose rejected handler recovers with a defined
value. -/
def recoverInt : RespInterceptor :=
  ⟨none, some (fun _ => .ok (some (.raw 5)))⟩

/-- A request interceptor whose fulfilled handler throws and that has no
rejected handler. -/
def throwingReqInt : ReqInterceptor Config :=
  ⟨some (fun _ => .error (.other "Boom" 7)), none⟩

/-- Initial heap for the aliasing model: the module-level default headers
object at reference 0 and one instance headers object at reference 1. -/
def heap0 : Heap := fun i =>
  if i = 0 then defaultHeaders else if i = 1 then [("A", "1")] else []

/-- A parent client built over the headers object at reference 1. -/
def parentClient : ClientRef := mkClientRef ⟨some 1, some "https://p"⟩

/-- The child produced by parentClient.create({}). -/
def childClient : ClientRef := ZogCreate parentClient ⟨none, none⟩

/-!  Helper lemmas about header lookup. -/

/-- Lookup in an appended (spread) header map: the right map wins when it
binds the key. -/
theorem hlookup_append (a b : Headers) (k : String) :
    hlookup (a ++ b) k =
      match hlookup b k with
      | some w => some w
      | none => hlookup a k := by
  induction a with
  | nil => simp only [List.nil_append]; cases hlookup b k <;> simp [hlookup]
  | cons p rest ih =>
    obtain ⟨pk, pv⟩ := p
    simp only [List.cons_append, hlookup]
    cases hb : hlookup b k <;> cases hr : hlookup rest k <;>
      simp [hlookup, ih, hb, hr]

/-- Spreading a header map with itself is lookup-equivalent to the map
itself. -/
theorem hlookup_spread_self (p : Headers) (k : String) :
    hlookup (spread p p) k = hlookup p k := by
  show hlookup (p ++ p) k = hlookup p k
  rw [hlookup_append]
  cases hlookup p k <;> rfl

/-- C2: a response with status at least 500 while retries remain causes a
retryDelay wait and a re-attempt with one fewer retry; a transfer
returning 503 twice then 200 with retries=2 resolves with the 200
response after exactly two retry delays (2000 ms at retryDelay 1000); a
4xx response (here 404) is never retried and rejects immediately with an
HttpError regardless of remaining retries. -/
theorem c2_retry_policy :
    (∀ (ints : List RespInterceptor) (fetchAt : Nat → FetchOutcome)
       (retryDelay attempt rl status : Nat) (data : String),
        fetchAt attempt = .ok status data → 500 ≤ status →
        executeRequest ints fetchAt retryDelay attempt (rl + 1) =
          ⟨(executeRequest ints fetchAt retryDelay (attempt + 1) rl).result,
            (executeRequest ints fetchAt retryDelay (attempt + 1) rl).attempts + 1,
            (executeRequest ints fetchAt retryDelay (attempt + 1) rl).delayMs
              + retryDelay⟩) ∧
    (∀ (fetchAt : Nat → FetchOutcome) (retryDelay attempt rl status : Nat)
       (data : String),
        fetchAt attempt = .ok status data → 400 ≤ status → status < 500 →
        executeRequest [] fetchAt retryDelay attempt rl =
          ⟨.error (mkHttpError status), 1, 0⟩) ∧
    executeRequest [] f503x2 1000 0 2 = ⟨.ok (.resp ⟨200, "ok"⟩), 3, 2000⟩ ∧
    (∀ rl : Nat, executeRequest [] f404 1000 0 rl =
        ⟨.error (mkHttpError 404), 1, 0⟩) := by
  have h4xx : ∀ (fetchAt : Nat → FetchOutcome)
      (retryDelay attempt rl status : Nat) (data : String),
      fetchAt attempt = .ok status data → 400 ≤ status → status < 500 →
      executeRequest [] fetchAt retryDelay attempt rl =
        ⟨.error (mkHttpError status), 1, 0⟩ := by
    intro fetchAt rd attempt rl s d hf h4 h5
    have h3 : ¬ s < 300 := by omega
    have h5n : ¬ 500 ≤ s := by omega
    cases rl <;>
      simp [executeRequest, hf, respOk, h3, h5n, catchTerminal, JsError.name,
        mkHttpError, runResponseErrorInterceptors]
  refine ⟨?_, h4xx, by decide, fun rl => h4xx f404 1000 0 rl 404 "nf" rfl
    (by decide) (by decide)⟩
  intro ints fetchAt rd attempt rl s d hf hs
  have h3 : ¬ s < 300 := by omega
  simp [executeRequest, hf, respOk, h3, hs]

/-- Witness for C2: the 4xx clause applied at status 404 with retry
budget 7. -/
theorem c2_witness :
    executeRequest [] f404 1000 0 7 = ⟨.error (mkHttpError 404), 1, 0⟩ :=
  c2_retry_policy.2.1 f404 1000 0 7 404 "nf" rfl (by decide) (by decide)

/-- C3 counterexample: with retries=1 against a transfer that returns 503
then 200, two attempts run but only ONE timeout callback is ever
scheduled (line 492 runs once, before the retry loop), so attempts do not
each schedule their own timeout as the claim states. -/
theorem c3_counterexample :
    (request (mkClientConfig bareCtor) [] [] f503x2 retry1Opts g0).attempts = 2 ∧
    (request (mkClientConfig bareCtor) [] [] f503x2 retry1Opts g0).timeoutsScheduled = 1 ∧
    (1 : Nat) ≠ 2 := by decide

/-- C3 amended: request() schedules exactly ONE timeout callback, at
request start before the first attempt, covering all attempts; an abort
during any attempt (the timeout fired) is classified as HttpError 408
"Request timeout" and is terminal: it is never retried, incurs no retry
delay, and ends the request regardless of the remaining retry budget. -/
theorem c3_single_timeout :
    (∀ (c : ClientConfig) (reqInts : List (ReqInterceptor Config))
       (respInts : List RespInterceptor) (fetchAt : Nat → FetchOutcome)
       (opts : Options) (g : GlobalState) (config : Config),
        runRequestInterceptors reqInts (mergeConfig c opts) = .ok config →
        (request c reqInts respInts fetchAt opts g).timeoutsScheduled = 1) ∧
    (∀ (ints : List RespInterceptor) (fetchAt : Nat → FetchOutcome)
       (retryDelay attempt rl : Nat),
        fetchAt attempt = .aborted →
        executeRequest ints fetchAt retryDelay attempt rl =
          ⟨.error (.httpError "Request timeout" 408), 1, 0⟩) := by
  constructor
  · intro c reqInts respInts fetchAt opts g config hok
    simp [request, hok]
  · intro ints fetchAt rd attempt rl hf
    cases rl <;> simp [executeRequest, hf, catchTerminal, JsError.name]

/-- Witness for C3 amended: one timeout scheduled for a plain successful
request, and a request aborted on its first attempt settles as HttpError
408 with a single attempt and no retry delay. -/
theorem c3_witness :
    (request (mkClientConfig bareCtor) [] [] f200 (bareOpts "/x") g0).timeoutsScheduled = 1 ∧
    executeRequest [] fAbort 1000 0 5 =
      ⟨.error (.httpError "Request timeout" 408), 1, 0⟩ :=
  ⟨c3_single_timeout.1 _ _ _ _ _ _ _ rfl, c3_single_timeout.2 _ _ _ _ _ rfl⟩

/-- Helper for C1: under the guarded scheduler (cancelAll only when no
request is in flight) the pendingRequests counter always equals the
number of in-flight requests. -/
theorem guardedReach_pending_eq_inFlight :
    ∀ s : CounterState, GuardedReach s → s.pending = s.inFlight := by
  intro s h
  induction h with
  | init => rfl
  | step _ hst ih =>
    cases hst with
    | beginReq p f => simp_all
    | settleReq p f => simp_all
    | cancelAllIdle p => simp

/-- Helper for C1: one sequential run of request() leaves pendingRequests
where it found it, on both exit paths (interceptor failure: never
incremented; transfer settled: incremented once at line 487 and
decremented exactly once in the finally block at line 577). -/
theorem request_pending_net :
    ∀ (c : ClientConfig) (reqInts : List (ReqInterceptor Config))
      (respInts : List RespInterceptor) (fetchAt : Nat → FetchOutcome)
      (opts : Options) (g : GlobalState),
      (request c reqInts respInts fetchAt opts g).state.pendingRequests
        = g.pendingRequests := by
  intro c reqInts respInts fetchAt opts g
  unfold request
  cases runRequestInterceptors reqInts (mergeConfig c opts) <;> simp

/-- C1 counterexample: a state with pendingRequests = -1 is reachable:
one request increments the counter (line 487), cancelAll resets it to 0
(line 1004) while that request is still unwinding, and the request's
finally block then decrements it below zero (line 577).  So with
cancellation via cancelAll in the picture, pendingRequests can go
negative and does not return to 0 after all requests settle. -/
theorem c1_counterexample :
    CounterReach ⟨-1, 0⟩ ∧ (-1 : Int) < 0 := by
  constructor
  · have h1 : CounterReach ⟨1, 1⟩ :=
      CounterReach.step CounterReach.init (CounterStep.beginReq 0 0)
    have h2 : CounterReach ⟨0, 1⟩ :=
      CounterReach.step h1 (CounterStep.cancelAll 1 1)
    exact CounterReach.step h2 (CounterStep.settleReq 0 0)
  · decide

/-- C1 amended: in executions where cancelAll is only invoked while no
request is in flight, pendingRequests always equals the number of
in-flight requests, hence is never negative and is exactly 0 once all
outstanding requests have settled; moreover every sequential request run
balances its increment with exactly one decrement, leaving the counter
unchanged on every exit path. -/
theorem c1_pending_invariant :
    (∀ s : CounterState, GuardedReach s →
        0 ≤ s.pending ∧ (s.inFlight = 0 → s.pending = 0)) ∧
    (∀ (c : ClientConfig) (reqInts : List (ReqInterceptor Config))
       (respInts : List RespInterceptor) (fetchAt : Nat → FetchOutcome)
       (opts : Options) (g : GlobalState),
        (request c reqInts respInts fetchAt opts g).state.pendingRequests
          = g.pendingRequests) := by
  constructor
  · intro s h
    have he := guardedReach_pending_eq_inFlight s h
    constructor
    · omega
    · intro h0
      rw [he, h0]
      rfl
  · exact request_pending_net

/-- Witness for C1 amended: the invariant at the initial idle state, and
the balanced counter for a concrete successful request. -/
theorem c1_witness :
    (0 ≤ (CounterState.mk 0 0).pending ∧
      ((CounterState.mk 0 0).inFlight = 0 → (CounterState.mk 0 0).pending = 0)) ∧
    (request (mkClientConfig bareCtor) [] [] f200 (bareOpts "/x") g0).state.pendingRequests
      = g0.pendingRequests :=
  ⟨c1_pending_invariant.1 _ GuardedReach.init,
    c1_pending_invariant.2 _ _ _ _ _ _⟩

/-- C4 counterexample: on the claim's own example (defaults={A:1},
instance={A:2,B:1}, perCall={B:2}) the code produces effective headers
with NO "A" key at all (the spread of options at line 445 overwrites the
headers object wholesale before the merge at lines 449-451 merges the
per-call headers with themselves), while the claimed three-layer
right-biased per-key merge yields A=2; moreover a builtin default header
(Content-Type) absent from a supplied instance layer does NOT survive,
because the constructor spread at line 156 replaces the default headers
object wholesale. -/
theorem c4_counterexample :
    hlookup (resolveHeaders
        (mkClientConfig { bareCtor with headers := some [("A", "2"), ("B", "1")] }).headers
        (some [("B", "2")])) "A" = none ∧
    hlookup (spread (spread [("A", "1")] [("A", "2"), ("B", "1")]) [("B", "2")]) "A"
      = some "2" ∧
    hlookup (resolveHeaders
        (mkClientConfig { bareCtor with headers := some [("X", "1")] }).headers
        none) "Content-Type" = none := by decide

/-- C4 amended: no per-key cross-layer merge happens.  When per-call
headers are provided they wholesale replace the instance headers (the
effective headers are lookup-equivalent to the per-call map alone); with
no per-call headers the instance headers are used as-is; and the instance
layer is the client-config headers object when one was supplied at
construction, else the builtin defaults — each present layer replaces the
previous one entirely. -/
theorem c4_header_resolution :
    (∀ (instH perCall : Headers) (k : String),
        hlookup (resolveHeaders instH (some perCall)) k = hlookup perCall k) ∧
    (∀ instH : Headers, resolveHeaders instH none = instH) ∧
    (∀ h : Headers,
        (mkClientConfig { bareCtor with headers := some h }).headers = h) ∧
    (mkClientConfig bareCtor).headers = defaultHeaders := by
  refine ⟨fun instH perCall k => ?_, fun instH => rfl, fun h => rfl, rfl⟩
  exact hlookup_spread_self perCall k

/-- C5 counterexample: "foo" normalizes to "FOO", which is not one of the
seven supported verbs, yet configuration resolution raises no error of
any kind: the request proceeds, the transport is invoked with method
"FOO", and the request resolves normally.  No ConfigError exists anywhere
in the code. -/
theorem c5_counterexample :
    supportedMethods.contains (strToUpper "foo") = false ∧
    (request (mkClientConfig bareCtor) [] [] f200 (methodOpts "foo") g0).result
      = .ok (.resp ⟨200, "ok"⟩) ∧
    (request (mkClientConfig bareCtor) [] [] f200 (methodOpts "foo") g0).state.lastRequest
      = some ("/x", "FOO") := by decide

/-- C5 amended: the code performs no method validation at all: for ANY
method string, configuration resolution succeeds, the method is merely
normalized to uppercase and handed to the transport, and the request
proceeds to the transfer stage. -/
theorem c5_no_method_validation :
    ∀ (m : String) (g : GlobalState),
      (request (mkClientConfig bareCtor) [] [] f200 (methodOpts m) g).result
        = .ok (.resp ⟨200, "ok"⟩) ∧
      (request (mkClientConfig bareCtor) [] [] f200 (methodOpts m) g).state.lastRequest
        = some ("/x", strToUpper m) :=
  fun _ _ => ⟨rfl, rfl⟩

/-- C6 counterexample: with one response interceptor whose rejected
handler itself throws (and so recovers nothing), the error re-thrown is
the handler's thrown error, NOT the original error passed in: the loop at
lines 411-413 reassigns the walked error on every handler throw. -/
theorem c6_counterexample :
    runResponseErrorInterceptors [throwingRecover] (.other "E" 1)
      = .error (.other "E" 2) ∧
    JsError.other "E" 2 ≠ JsError.other "E" 1 := by decide

/-- C6 amended: runResponseErrorInterceptors walks the response
interceptors in registration order; entries without a rejected handler
are skipped; the first rejected handler returning a defined value
short-circuits the walk with that value as the resolved result; a handler
returning undefined passes the error on unchanged; a handler that THROWS
replaces the error carried to the remaining handlers and to the final
rethrow; and when every rejected handler returns undefined without
throwing, the original error is re-thrown unchanged. -/
theorem c6_error_interceptor_walk :
    (∀ (rest : List RespInterceptor)
       (fl : Option (Value → Except JsError (Option Value)))
       (g : JsError → Except JsError (Option Value)) (e : JsError) (v : Value),
        g e = .ok (some v) →
        runResponseErrorInterceptors ({ fulfilled := fl, rejected := some g } :: rest) e
          = .ok v) ∧
    (∀ (rest : List RespInterceptor)
       (fl : Option (Value → Except JsError (Option Value))) (e : JsError),
        runResponseErrorInterceptors ({ fulfilled := fl, rejected := none } :: rest) e
          = runResponseErrorInterceptors rest e) ∧
    (∀ (rest : List RespInterceptor)
       (fl : Option (Value → Except JsError (Option Value)))
       (g : JsError → Except JsError (Option Value)) (e : JsError),
        g e = .ok none →
        runResponseErrorInterceptors ({ fulfilled := fl, rejected := some g } :: rest) e
          = runResponseErrorInterceptors rest e) ∧
    (∀ (rest : List RespInterceptor)
       (fl : Option (Value → Except JsError (Option Value)))
       (g : JsError → Except JsError (Option Value)) (e e2 : JsError),
        g e = .error e2 →
        runResponseErrorInterceptors ({ fulfilled := fl, rejected := some g } :: rest) e
          = runResponseErrorInterceptors rest e2) ∧
    (∀ (ints : List RespInterceptor) (e : JsError),
        (∀ i ∈ ints, ∀ g, i.rejected = some g → g e = .ok none) →
        runResponseErrorInterceptors ints e = .error e) := by
  refine ⟨?_, ?_, ?_, ?_, ?_⟩
  · intro rest fl g e v hg
    simp [runResponseErrorInterceptors, hg]
  · intro rest fl e
    simp [runResponseErrorInterceptors]
  · intro rest fl g e hg
    simp [runResponseErrorInterceptors, hg]
  · intro rest fl g e e2 hg
    simp [runResponseErrorInterceptors, hg]
  · intro ints e hall
    induction ints with
    | nil => rfl
    | cons i rest ih =>
      have hrest : ∀ j ∈ rest, ∀ g, j.rejected = some g → g e = .ok none :=
        fun j hj => hall j (List.mem_cons_of_mem i hj)
      cases hr : i.rejected with
      | none => simp [runResponseErrorInterceptors, hr, ih hrest]
      | some g =>
        have hg : g e = .ok none := hall i (List.mem_cons_self i rest) g hr
        simp [runResponseErrorInterceptors, hr, hg, ih hrest]

/-- Witness for C6 amended: a recovering handler short-circuits with its
defined value; the empty chain re-throws the original error. -/
theorem c6_witness :
    runResponseErrorInterceptors [recoverInt] (.other "X" 0) = .ok (.raw 5) ∧
    runResponseErrorInterceptors [] (.other "X" 0) = .error (.other "X" 0) :=
  ⟨c6_error_interceptor_walk.1 [] none _ (.other "X" 0) (.raw 5) rfl,
    c6_error_interceptor_walk.2.2.2.2 [] (.other "X" 0) (by intro i hi; cases hi)⟩

/-- Helper for C7: a param whose value is undefined contributes no
key=value pair at all, wherever it sits in the params object. -/
theorem queryPairs_undef (k : String) (p₁ p₂ : List (String × PVal)) :
    queryPairs (p₁ ++ (k, PVal.undef) :: p₂) = queryPairs (p₁ ++ p₂) := by
  unfold queryPairs
  rw [List.foldl_append, List.foldl_append]
  rfl

/-- C7: the built URL uses the url verbatim (baseURL ignored) when it
starts with "http" and otherwise prepends baseURL; each scalar param
yields one key=value pair and each list param repeated pairs in list
order; an undefined value yields no pair at all; and a non-empty query
string is appended with a question mark when the URL has none, else with
an ampersand — including the claim's concrete examples. -/
theorem c7_buildURL :
    (∀ (b u : String) (p : List (String × PVal)),
        strStartsWith u "http" = true → buildURL b u p = buildURL "" u p) ∧
    (∀ b u : String, strStartsWith u "http" = false →
        buildURL b u [] = b ++ u) ∧
    (∀ k v : String, queryPairs [(k, PVal.scalar v)] = [(k, v)]) ∧
    (∀ (k : String) (xs : List String),
        queryPairs [(k, PVal.list xs)] = xs.map (fun x => (k, x))) ∧
    (∀ (b u k : String) (p₁ p₂ : List (String × PVal)),
        buildURL b u (p₁ ++ (k, PVal.undef) :: p₂) = buildURL b u (p₁ ++ p₂)) ∧
    buildURL "" "/items" [("page", .scalar "1"), ("tag", .list ["x", "y"])]
      = "/items?page=1&tag=x&tag=y" ∧
    buildURL "/base" "/i?x=1" [("b", .scalar "2")] = "/base/i?x=1&b=2" := by
  refine ⟨?_, ?_, fun k v => rfl, fun k xs => rfl, ?_, by decide, by decide⟩
  · intro b u p h
    simp [buildURL, h]
  · intro b u h
    simp [buildURL, h, queryPairs, queryToString,
      show String.intercalate "&" ([] : List String) = "" from rfl]
  · intro b u k p₁ p₂
    unfold buildURL
    rw [queryPairs_undef]

/-- Witness for C7: the verbatim clause at an absolute URL and the
prepend clause at a relative one. -/
theorem c7_witness :
    buildURL "/base" "http://a" [] = buildURL "" "http://a" [] ∧
    buildURL "/base" "/u" [] = "/base" ++ "/u" :=
  ⟨c7_buildURL.1 "/base" "http://a" [] (by decide),
    c7_buildURL.2.1 "/base" "/u" (by decide)⟩

/-- C8 counterexample: a request that ends in an unrecovered failure (404
with no interceptors) leaves GlobalState.error equal to null, not the
failure: the only assignment to state.error in the whole request path is
the clearing at line 489; no code ever stores a failure there. -/
theorem c8_counterexample :
    (request (mkClientConfig bareCtor) [] [] f404 (bareOpts "/x") g0).result
      = .error (mkHttpError 404) ∧
    (request (mkClientConfig bareCtor) [] [] f404 (bareOpts "/x") g0).state.error
      = none ∧
    (none : Option JsError) ≠ some (mkHttpError 404) := by decide

/-- C8 amended: request() sets GlobalState.error to null once the request
interceptors succeed (line 489) and never assigns it again, so after any
request that reaches the transfer stage GlobalState.error is null
regardless of the outcome; it is never set to the failure. -/
theorem c8_error_never_set :
    ∀ (c : ClientConfig) (reqInts : List (ReqInterceptor Config))
      (respInts : List RespInterceptor) (fetchAt : Nat → FetchOutcome)
      (opts : Options) (g : GlobalState) (config : Config),
      runRequestInterceptors reqInts (mergeConfig c opts) = .ok config →
      (request c reqInts respInts fetchAt opts g).state.error = none := by
  intro c reqInts respInts fetchAt opts g config h
  simp [request, h]

/-- Witness for C8 amended: the failing concrete request ends with a null
error slot. -/
theorem c8_witness :
    (request (mkClientConfig bareCtor) [] [] f404 retry1Opts g0).state.error
      = none :=
  c8_error_never_set _ _ _ _ _ _ _ rfl

/-- C9 counterexample: a child created by parent.create({}) shares the
parent's headers object by reference (the config spreads at lines 1014
and 156 are shallow), so child.setHeader("B","2") makes "B" visible in
the parent's effective configuration for subsequent requests. -/
theorem c9_counterexample :
    hlookup (instanceHeadersOf parentClient heap0) "B" = none ∧
    hlookup (instanceHeadersOf parentClient
        (setHeader childClient heap0 "B" "2")) "B" = some "2" := by decide

/-- C9 amended: create copies top-level config fields but the headers
OBJECT is shared by reference: a child created without its own headers
override holds the parent's headers reference, so an in-place setHeader
through either client mutates the headers both clients read; only an
override that supplies its own headers object, or top-level fields like
baseURL (fresh per client config object), are unshared. -/
theorem c9_shared_headers :
    (∀ (c : ClientRef) (base : Option String),
        (ZogCreate c ⟨none, base⟩).headersRef = c.headersRef) ∧
    (∀ (c : ClientRef) (heap : Heap) (k v : String),
        instanceHeadersOf c (setHeader (ZogCreate c ⟨none, none⟩) heap k v)
          = instanceHeadersOf c heap ++ [(k, v)]) ∧
    (∀ (c : ClientRef) (r : Nat) (base : Option String),
        (ZogCreate c ⟨some r, base⟩).headersRef = r) ∧
    (∀ (c : ClientRef) (u : String),
        (setBaseURL c u).headersRef = c.headersRef ∧
        (setBaseURL c u).baseURL = u) := by
  refine ⟨fun c base => ?_, fun c heap k v => ?_, fun c r base => rfl,
    fun c u => ⟨rfl, rfl⟩⟩
  · simp [ZogCreate, mkClientRef, Option.orElse]
  · simp [setHeader, heapSet, instanceHeadersOf, ZogCreate, mkClientRef,
      Option.orElse]

/-- C10: when a request interceptor throws and the chain does not
recover, request() rejects with that error, the abort controller is
removed from the registry (line 457), and the GlobalState is left
completely unchanged — pendingRequests is not incremented and loading,
lastRequest and error keep their prior values, because the state updates
at lines 485-489 only run after the interceptors succeed; no timeout is
scheduled and no transfer attempt is made. -/
theorem c10_interceptor_failure_frame :
    ∀ (c : ClientConfig) (reqInts : List (ReqInterceptor Config))
      (respInts : List RespInterceptor) (fetchAt : Nat → FetchOutcome)
      (opts : Options) (g : GlobalState) (e : JsError),
      runRequestInterceptors reqInts (mergeConfig c opts) = .error e →
      request c reqInts respInts fetchAt opts g
        = ⟨.error e, g, false, 0, 0, 0⟩ := by
  intro c reqInts respInts fetchAt opts g e h
  simp [request, h]

/-- Witness for C10: a concrete throwing request interceptor with no
rejected handler rejects the request with its error while the prior
global state survives untouched. -/
theorem c10_witness :
    request (mkClientConfig bareCtor) [throwingReqInt] [] f200 (bareOpts "/x") g0
      = ⟨.error (.other "Boom" 7), g0, false, 0, 0, 0⟩ :=
  c10_interceptor_failure_frame _ _ _ _ _ _ _ rfl

end ZogHttp
